import Mathlib

/-!
Shallow embedding of the connector / executor / pool core of
sprockets_postgres.py: the result shaper, the shared query path with its
timeout resolution, the transaction scope, scoped connector acquisition, the
status health check, the default error-translation policy, and pool shutdown.
Python exceptions are modelled by an inductive type, raising by Except, and
the driver (aiopg / psycopg2) primitives by explicit parameters following the
driver-capability contract.  Each theorem settles one claim about the code.
-/

namespace SprocketsPostgres

/-- Global default query timeout: DEFAULT_POSTGRES_QUERY_TIMEOUT = 120. -/
def DEFAULT_POSTGRES_QUERY_TIMEOUT : Nat := 120

/-- Fixed health-check timeout: ApplicationMixin.POSTGRES_STATUS_TIMEOUT = 3. -/
def POSTGRES_STATUS_TIMEOUT : Nat := 3

/-- A returned database row: a mapping from column names to values (a psycopg2
RealDictRow; Python dict(row) is the identity on this model). -/
abbrev Row := List (String × String)

/-- The Python exceptions the module distinguishes.  uniqueViolation is
psycopg2 errors.UniqueViolation, a subclass of psycopg2.Error; otherPgError
stands for every other psycopg2.Error; httpError is tornado web.HTTPError;
typeError is the uncaught TypeError from dict(None); otherError is any other
exception foreign to the module. -/
inductive PyExc
  | connectionException (msg : String)
  | timeoutError
  | uniqueViolation
  | otherPgError
  | httpError (status : Nat) (reason : String)
  | typeError
  | otherError
  deriving Repr, DecidableEq

/-- Whether an exception is matched by the clause
except (asyncio.TimeoutError, psycopg2.Error) used in _query and in
postgres_connector: UniqueViolation is a psycopg2.Error subclass, while
ConnectionException and web.HTTPError are not. -/
def PyExc.isTimeoutOrPgError : PyExc → Bool
  | .timeoutError => true
  | .uniqueViolation => true
  | .otherPgError => true
  | _ => false

/-- Model of Python str(err), used when an acquisition failure is wrapped as
ConnectionException(str(err)). -/
def PyExc.pyStr : PyExc → String
  | .connectionException m => m
  | .timeoutError => "TimeoutError"
  | .uniqueViolation => "duplicate key value violates unique constraint"
  | .otherPgError => "database error"
  | .httpError _ r => r
  | .typeError => "TypeError"
  | .otherError => "Exception"

/-- The QueryResult dataclass: row_count as reported by the driver (psycopg2
reports it as a plain int, possibly -1), the single row when exactly one was
returned, the ordered rows when more than one were returned. -/
structure QueryResult where
  row_count : Int
  row : Option Row
  rows : Option (List Row)
  deriving Repr, DecidableEq

/-- The cursor state read by _query_results after an execute: the reported
rowcount and the result set.  resultSet is none when the statement kind
produced no result set at all, in which case fetchone and fetchall raise
psycopg2.ProgrammingError. -/
structure CursorResults where
  rowcount : Int
  resultSet : Option (List Row)
  deriving Repr, DecidableEq

/-- cursor.fetchone(): ProgrammingError (the .error case) when there is no
result set, otherwise the first row, or Python None when the set is empty. -/
def CursorResults.fetchone (c : CursorResults) : Except Unit (Option Row) :=
  match c.resultSet with
  | none => .error ()
  | some rs => .ok rs.head?

/-- cursor.fetchall(): ProgrammingError when there is no result set, otherwise
every row in driver return order. -/
def CursorResults.fetchall (c : CursorResults) : Except Unit (List Row) :=
  match c.resultSet with
  | none => .error ()
  | some rs => .ok rs

/-- Python dict(x) as applied by _query_results to a fetched row: the identity
on a RealDictRow mapping, an uncaught TypeError on None. -/
def dictOfRow : Option Row → Except PyExc Row
  | none => .error .typeError
  | some r => .ok r

/-- PostgresConnector._query_results: branch on cursor.rowcount; when it is 1
fetch one row, when it is greater than 1 fetch all rows, suppressing
psycopg2.ProgrammingError from either fetch; otherwise leave both fields
unset.  The TypeError from dict(None) (rowcount 1 with an empty result set)
is not caught and propagates. -/
def queryResults (c : CursorResults) : Except PyExc QueryResult :=
  if c.rowcount = 1 then
    match c.fetchone with
    | .error () => .ok ⟨c.rowcount, none, none⟩
    | .ok r =>
      match dictOfRow r with
      | .error e => .error e
      | .ok d => .ok ⟨c.rowcount, some d, none⟩
  else if 1 < c.rowcount then
    match c.fetchall with
    | .error () => .ok ⟨c.rowcount, none, none⟩
    | .ok rs => .ok ⟨c.rowcount, none, some rs⟩
  else
    .ok ⟨c.rowcount, none, none⟩

/-- Timeout resolution in PostgresConnector.__init__: the Python expression
timeout or int(os.environ.get(POSTGRES_QUERY_TIMEOUT, default)) takes the
right operand whenever the left is falsy, so both None and 0 fall back to the
environment value, itself defaulting to the global 120. -/
def initTimeout (ctorTimeout : Option Nat) (envTimeout : Option Nat) : Nat :=
  match ctorTimeout with
  | some t =>
    if t = 0 then envTimeout.getD DEFAULT_POSTGRES_QUERY_TIMEOUT else t
  | none => envTimeout.getD DEFAULT_POSTGRES_QUERY_TIMEOUT

/-- Per-call timeout resolution at the top of _query: the timeout kwarg is
replaced by the connector default only when it is None. -/
def resolveQueryTimeout (callTimeout : Option Nat) (selfTimeout : Nat) : Nat :=
  match callTimeout with
  | none => selfTimeout
  | some t => t

/-- Behavior of the driver execute primitive (cursor.execute or
cursor.callproc) for one call: given the operation text (SQL or procedure
name) and the resolved timeout, it either raises or succeeds leaving the
cursor holding results. -/
abbrev DriverExec := String → Nat → Except PyExc CursorResults

/-- An on_error callback: it may itself raise (the Except.error case), return
an exception for the caller to raise (.ok (some e)), or swallow the error
(.ok none). -/
abbrev OnError := String → PyExc → Except PyExc (Option PyExc)

/-- The try / except / else body of _query, after the driver call: a caught
asyncio.TimeoutError or psycopg2.Error is handed to on_error and only what
on_error returns is raised (falling off the function, returning Python None,
when it swallows); on driver success the results are shaped, the duration is
reported when an on_duration callback is configured, and the shaped result is
returned.  The value is the argument handed to on_error (when invoked), the
arguments handed to on_duration (when invoked), and the raised or returned
outcome. -/
def queryRun (onError : OnError) (outcome : Except PyExc CursorResults)
    (metricName : String) (hasOnDuration : Bool) (t0 t1 : Nat) :
    Option PyExc × Option (String × Nat) × Except PyExc (Option QueryResult) :=
  match outcome with
  | .error err =>
    if err.isTimeoutOrPgError then
      match onError metricName err with
      | .error raised => (some err, none, .error raised)
      | .ok (some exc) => (some err, none, .error exc)
      | .ok none => (some err, none, .ok none)
    else (none, none, .error err)
  | .ok cur =>
    match queryResults cur with
    | .error e => (none, none, .error e)
    | .ok res =>
      if hasOnDuration then (none, some (metricName, t1 - t0), .ok (some res))
      else (none, none, .ok (some res))

/-- Observable outcome of one _query call: the operation and timeout handed to
the driver, the error handed to on_error when it was invoked, the metric name
and duration handed to on_duration when it was invoked, and the value
returned or exception raised. -/
structure QueryTrace where
  operation : String
  driverTimeout : Nat
  onErrorArg : Option PyExc
  onDurationArgs : Option (String × Nat)
  result : Except PyExc (Option QueryResult)
  deriving Repr

/-- PostgresConnector._query: resolve the timeout, record start_time (the
clock reading t0), invoke the driver, then run the try / except / else body
modelled by queryRun.  t1 is the clock reading taken when the duration is
computed, after result shaping. -/
def query (selfTimeout : Nat) (onError : OnError) (hasOnDuration : Bool)
    (method : DriverExec) (operation : String) (metricName : String)
    (callTimeout : Option Nat) (t0 t1 : Nat) : QueryTrace :=
  let tmo := resolveQueryTimeout callTimeout selfTimeout
  let r := queryRun onError (method operation tmo) metricName hasOnDuration t0 t1
  ⟨operation, tmo, r.1, r.2.1, r.2.2⟩

/-- RequestHandlerMixin._on_postgres_error, the default error-translation
policy: after logging, each of the four recognized categories raises a
tornado web.HTTPError (modelled as Except.error) with the corresponding
status, and any unrecognized exception is returned as-is for the caller to
raise.  The isinstance chain checks ConnectionException first, then
asyncio.TimeoutError, then errors.UniqueViolation, then psycopg2.Error. -/
def onPostgresError (_metricName : String) (exc : PyExc) :
    Except PyExc (Option PyExc) :=
  match exc with
  | .connectionException _ => .error (.httpError 503 "Database Connection Error")
  | .timeoutError => .error (.httpError 500 "Query Timeout")
  | .uniqueViolation => .error (.httpError 409 "Unique Violation")
  | .otherPgError => .error (.httpError 500 "Database Error")
  | e => .ok (some e)

/-- Pool counters and closed flag visible to the application mixin. -/
structure PoolState where
  size : Nat
  freesize : Nat
  closed : Bool
  deriving Repr, DecidableEq

/-- Modelled from the spec: the driver pool close primitive
(pool.close() followed by await pool.wait_closed()) marks the pool closed and
waits for connections to be returned; closing an already closed pool changes
nothing further.  The pool object itself is the external driver capability. -/
def poolClose (p : PoolState) : PoolState := ⟨p.size, p.freesize, true⟩

/-- ApplicationMixin._postgres_shutdown: when self._postgres_pool is None (the
pool was never started) do nothing; otherwise close the pool and wait for it
to finish closing.  The function is total: no path raises. -/
def postgresShutdown : Option PoolState → Option PoolState
  | none => none
  | some p => some (poolClose p)

/-- A transaction-relevant event observed on the held connection. -/
inductive TxEvent
  | begin
  | commit
  | rollback
  | stmt (n : Nat)
  deriving Repr, DecidableEq

/-- The body of a transaction scope, run against the connector the scope
yields: the events it issues on that connector and the exception it raises,
if any (none means the body exited normally). -/
abbrev TxBody (α : Type) := α → List TxEvent × Option PyExc

/-- Modelled from the spec: the driver capability cursor.begin() asynchronous
context manager issues BEGIN on entry, COMMIT on normal exit of the scope,
and ROLLBACK before re-raising when the body raises. -/
def beginScope (bodyEvents : List TxEvent) (bodyErr : Option PyExc) :
    List TxEvent × Option PyExc :=
  match bodyErr with
  | none => (TxEvent.begin :: bodyEvents ++ [TxEvent.commit], none)
  | some e => (TxEvent.begin :: bodyEvents ++ [TxEvent.rollback], some e)

/-- The data of a PostgresConnector as constructed by postgres_connector: the
cursor handle and the default timeout resolved by __init__.  The error and
duration callbacks it stores are threaded separately, as query arguments. -/
structure Connector where
  cursor : Nat
  selfTimeout : Nat
  deriving Repr, DecidableEq

/-- PostgresConnector.transaction, whose whole body is
async with self.cursor.begin(): yield self — it wraps the body in the driver
begin scope and yields the connector itself, so the body runs against the
very connector the scope was opened on. -/
def transactionScope {α : Type} (self : α) (body : TxBody α) :
    List TxEvent × Option PyExc :=
  beginScope (body self).1 (body self).2

/-- Observable outcome of entering the postgres_connector scope: the metric
name and error handed to on_error (when acquisition failed with a caught
exception), and what the scope does: raise, yield a connector, or yield
Python None. -/
structure AcquireTrace where
  onErrorArgs : Option (String × PyExc)
  outcome : Except PyExc (Option Connector)
  deriving Repr

/-- ApplicationMixin.postgres_connector: acquire a connection and cursor from
the pool and yield a PostgresConnector bound to the given timeout; when
acquisition or cursor creation raises asyncio.TimeoutError or psycopg2.Error,
wrap the error as ConnectionException(str(err)), hand it to on_error under
the metric name postgres_connector, raise whatever on_error returns, and
yield None when on_error swallows it.  acquire is the combined outcome of
pool.acquire() and conn.cursor(...), producing a cursor handle on success. -/
def postgresConnector (acquire : Except PyExc Nat) (onError : OnError)
    (timeout : Option Nat) (envTimeout : Option Nat) : AcquireTrace :=
  match acquire with
  | .ok cur => ⟨none, .ok (some ⟨cur, initTimeout timeout envTimeout⟩)⟩
  | .error e =>
    if e.isTimeoutOrPgError then
      match onError "postgres_connector" (PyExc.connectionException e.pyStr) with
      | .error raised =>
        ⟨some ("postgres_connector", PyExc.connectionException e.pyStr),
         .error raised⟩
      | .ok (some exc) =>
        ⟨some ("postgres_connector", PyExc.connectionException e.pyStr),
         .error exc⟩
      | .ok none =>
        ⟨some ("postgres_connector", PyExc.connectionException e.pyStr),
         .ok none⟩
    else ⟨none, .error e⟩

/-- The dictionary returned by postgres_status. -/
structure StatusReport where
  available : Bool
  pool_size : Nat
  pool_free : Nat
  deriving Repr, DecidableEq

/-- The local on_error installed by postgres_status: it sets the query_error
event and returns None, swallowing every error.  The event-set is recovered
from the traces when postgres_status is modelled. -/
def statusOnError : OnError := fun _ _ => .ok none

/-- ApplicationMixin.postgres_status: acquire a connector through
postgres_connector with the fixed POSTGRES_STATUS_TIMEOUT and the swallowing
statusOnError, run SELECT 1 through it when a connector was yielded, and
report available iff the query_error event was never set (on_error never
invoked), together with the pool size and free count, which are reported
regardless of availability. -/
def postgresStatus (pool : PoolState) (envTimeout : Option Nat)
    (acquire : Except PyExc Nat) (method : DriverExec) (t0 t1 : Nat) :
    Except PyExc StatusReport :=
  let acq := postgresConnector acquire statusOnError
    (some POSTGRES_STATUS_TIMEOUT) envTimeout
  match acq.outcome with
  | .error e => .error e
  | .ok none => .ok ⟨!acq.onErrorArgs.isSome, pool.size, pool.freesize⟩
  | .ok (some conn) =>
    let tr := query conn.selfTimeout statusOnError false method "SELECT 1" ""
      none t0 t1
    match tr.result with
    | .error e => .error e
    | .ok _ =>
      .ok ⟨!(acq.onErrorArgs.isSome || tr.onErrorArg.isSome),
           pool.size, pool.freesize⟩

/-- Concrete row for witnesses. -/
def rowA : Row := [("id", "1")]

/-- Concrete row for witnesses. -/
def rowB : Row := [("id", "2")]

/-- A concrete transaction body for the C2 witness: two statements, then a
timeout raised inside the scope. -/
def txWitnessBody : TxBody Connector :=
  fun _ => ([TxEvent.stmt 1, TxEvent.stmt 2], some PyExc.timeoutError)

/-- A concrete on_error for witnesses: returns an exception value for the
caller to raise. -/
def returnOtherOnError : OnError := fun _ _ => .ok (some PyExc.otherError)

/-- A concrete on_error for witnesses: swallows every error. -/
def swallowOnError : OnError := fun _ _ => .ok none

/-- A concrete driver behavior for witnesses: every call times out. -/
def alwaysTimeoutExec : DriverExec := fun _ _ => .error PyExc.timeoutError

/-- A concrete driver behavior for witnesses: every call succeeds with a
single-row result set. -/
def oneRowExec : DriverExec := fun _ _ => .ok ⟨1, some [rowA]⟩

/-- C1: the shaped QueryResult of every executed statement: one reported row
sets row to that row as a mapping and leaves rows unset; N greater than 1
reported rows set rows to the N driver rows in driver order and leave row
unset; zero reported rows set neither; row and rows are never both set; and
a statement kind with no result set (fetch raises the no-result-set
ProgrammingError) leaves the fields unset without failing. -/
theorem c1_query_result_shape (c : CursorResults) :
    (∀ r, c.rowcount = 1 → c.resultSet = some [r] →
        queryResults c = .ok ⟨1, some r, none⟩)
  ∧ (∀ rs : List Row, c.rowcount = (rs.length : Int) → 1 < rs.length →
        c.resultSet = some rs →
        queryResults c = .ok ⟨(rs.length : Int), none, some rs⟩)
  ∧ (c.rowcount = 0 → queryResults c = .ok ⟨0, none, none⟩)
  ∧ (∀ qr, queryResults c = .ok qr →
        ¬(qr.row.isSome = true ∧ qr.rows.isSome = true))
  ∧ (c.resultSet = none → queryResults c = .ok ⟨c.rowcount, none, none⟩) := by
  refine ⟨?_, ?_, ?_, ?_, ?_⟩
  · intro r h1 h2
    simp [queryResults, CursorResults.fetchone, dictOfRow, h1, h2]
  · intro rs h1 h2 h3
    have hne : ¬((rs.length : Int) = 1) := by omega
    have hgt : (1 : Int) < (rs.length : Int) := by exact_mod_cast h2
    simp [queryResults, CursorResults.fetchall, h1, h3, hne, hgt]
  · intro h
    simp [queryResults, h]
  · intro qr hqr
    unfold queryResults at hqr
    split at hqr
    · split at hqr
      · rw [Except.ok.injEq] at hqr
        subst hqr
        simp
      · split at hqr
        · simp_all
        · rw [Except.ok.injEq] at hqr
          subst hqr
          simp
    · split at hqr
      · split at hqr
        · rw [Except.ok.injEq] at hqr
          subst hqr
          simp
        · rw [Except.ok.injEq] at hqr
          subst hqr
          simp
      · rw [Except.ok.injEq] at hqr
        subst hqr
        simp
  · intro h
    simp only [queryResults, CursorResults.fetchone, CursorResults.fetchall, h]
    split
    · rfl
    · split
      · rfl
      · rfl

/-- Witness for C1 at a concrete two-row cursor. -/
theorem c1_shape_witness :
    queryResults ⟨2, some [rowA, rowB]⟩ = .ok ⟨2, none, some [rowA, rowB]⟩ := by
  have h := (c1_query_result_shape ⟨2, some [rowA, rowB]⟩).2.1 [rowA, rowB]
    (by decide) (by decide) rfl
  simpa using h

/-- C2: every transaction scope issues a begin first, runs the body against
the very connector it was opened on (the equations are stated at body self),
commits on error-free exit, and on any error raised inside the scope issues a
rollback after everything the body executed, before propagating that very
error. -/
theorem c2_transaction_scope {α : Type} (self : α) (body : TxBody α) :
    (transactionScope self body).1.head? = some TxEvent.begin
  ∧ ((body self).2 = none →
      transactionScope self body
        = (TxEvent.begin :: (body self).1 ++ [TxEvent.commit], none))
  ∧ (∀ e, (body self).2 = some e →
      transactionScope self body
        = (TxEvent.begin :: (body self).1 ++ [TxEvent.rollback], some e)) := by
  refine ⟨?_, ?_, ?_⟩
  · unfold transactionScope beginScope
    cases h : (body self).2 <;> simp [h]
  · intro h
    simp [transactionScope, beginScope, h]
  · intro e h
    simp [transactionScope, beginScope, h]

/-- Witness for C2: the failing body gets begin, its two statements, then
rollback, and the timeout propagates. -/
theorem c2_transaction_witness :
    transactionScope (⟨1, 120⟩ : Connector) txWitnessBody
      = ([TxEvent.begin, TxEvent.stmt 1, TxEvent.stmt 2, TxEvent.rollback],
         some PyExc.timeoutError) := by
  have h := (c2_transaction_scope (⟨1, 120⟩ : Connector) txWitnessBody).2.2
    PyExc.timeoutError rfl
  simpa [txWitnessBody] using h

/-- C7: the default error-translation policy maps a connection failure to an
HTTP error with status 503, a timeout to status 500, a uniqueness violation
to status 409, any other driver error to status 500, and returns any
unrecognized exception as-is for the caller to raise. -/
theorem c7_default_error_policy (metricName msg reason : String) (status : Nat) :
    onPostgresError metricName (PyExc.connectionException msg)
        = .error (PyExc.httpError 503 "Database Connection Error")
  ∧ onPostgresError metricName PyExc.timeoutError
        = .error (PyExc.httpError 500 "Query Timeout")
  ∧ onPostgresError metricName PyExc.uniqueViolation
        = .error (PyExc.httpError 409 "Unique Violation")
  ∧ onPostgresError metricName PyExc.otherPgError
        = .error (PyExc.httpError 500 "Database Error")
  ∧ onPostgresError metricName (PyExc.httpError status reason)
        = .ok (some (PyExc.httpError status reason))
  ∧ onPostgresError metricName PyExc.typeError = .ok (some PyExc.typeError)
  ∧ onPostgresError metricName PyExc.otherError = .ok (some PyExc.otherError) :=
  ⟨rfl, rfl, rfl, rfl, rfl, rfl, rfl⟩

/-- C8: shutdown is idempotent-safe: with no pool it is a no-op that does not
error; one shutdown leaves the pool closed; a second shutdown in a row gives
the same closed pool, so both calls observe the pool closed and neither
errors (postgresShutdown is a total function). -/
theorem c8_shutdown_idempotent :
    postgresShutdown none = none
  ∧ (∀ p : PoolState, postgresShutdown (some p) = some ⟨p.size, p.freesize, true⟩)
  ∧ (∀ p : PoolState,
      postgresShutdown (postgresShutdown (some p)) = postgresShutdown (some p)) :=
  ⟨rfl, fun _ => rfl, fun _ => rfl⟩

/-- C3: in _query, a caught timeout or driver error is handed to on_error
and, when on_error returns a non-null error value, that value is raised and
the duration callback is not invoked; on driver success the shaped result is
returned and, when a duration callback is configured, it receives the metric
name and the elapsed time t1 - t0 measured from the start_time reading t0
taken before the driver call. -/
theorem c3_query_error_and_duration (selfTimeout : Nat) (onError : OnError)
    (hasOnDuration : Bool) (method : DriverExec) (operation metricName : String)
    (callTimeout : Option Nat) (t0 t1 : Nat) :
    (∀ err,
      method operation (resolveQueryTimeout callTimeout selfTimeout)
          = .error err →
      err.isTimeoutOrPgError = true →
        (query selfTimeout onError hasOnDuration method operation metricName
          callTimeout t0 t1).onErrorArg = some err
      ∧ (∀ exc, onError metricName err = .ok (some exc) →
          (query selfTimeout onError hasOnDuration method operation metricName
            callTimeout t0 t1).result = .error exc
        ∧ (query selfTimeout onError hasOnDuration method operation metricName
            callTimeout t0 t1).onDurationArgs = none))
  ∧ (∀ cur res,
      method operation (resolveQueryTimeout callTimeout selfTimeout) = .ok cur →
      queryResults cur = .ok res →
        (query selfTimeout onError hasOnDuration method operation metricName
          callTimeout t0 t1).result = .ok (some res)
      ∧ (hasOnDuration = true →
          (query selfTimeout onError hasOnDuration method operation metricName
            callTimeout t0 t1).onDurationArgs = some (metricName, t1 - t0))) := by
  constructor
  · intro err hm hc
    constructor
    · cases ho : onError metricName err with
      | error raised => simp [query, queryRun, hm, hc, ho]
      | ok o => cases o <;> simp [query, queryRun, hm, hc, ho]
    · intro exc hoe
      constructor <;> simp [query, queryRun, hm, hc, hoe]
  · intro cur res hm hres
    constructor
    · cases hasOnDuration <;> simp [query, queryRun, hm, hres]
    · intro hd
      subst hd
      simp [query, queryRun, hm, hres]

/-- Witness for C3 at a concrete timing-out driver and an on_error returning
an error value: the returned value is raised and no duration is recorded. -/
theorem c3_query_witness :
    (query 5 returnOtherOnError true alwaysTimeoutExec "SELECT 1" "m" none
        10 12).result = .error PyExc.otherError
  ∧ (query 5 returnOtherOnError true alwaysTimeoutExec "SELECT 1" "m" none
        10 12).onDurationArgs = none :=
  ((c3_query_error_and_duration 5 returnOtherOnError true alwaysTimeoutExec
    "SELECT 1" "m" none 10 12).1 PyExc.timeoutError rfl rfl).2
    PyExc.otherError rfl

/-- C4: when acquisition or cursor creation fails with a caught timeout or
driver error, the error is handed to on_error under the metric name
postgres_connector wrapped as a ConnectionException; when on_error returns a
non-null error value that value is raised; when on_error returns null the
scope yields Python None instead of raising. -/
theorem c4_connector_acquisition_failure (acquire : Except PyExc Nat)
    (onError : OnError) (timeout envTimeout : Option Nat) (e : PyExc)
    (hacq : acquire = .error e) (hc : e.isTimeoutOrPgError = true) :
    (postgresConnector acquire onError timeout envTimeout).onErrorArgs
        = some ("postgres_connector", PyExc.connectionException e.pyStr)
  ∧ (∀ exc,
      onError "postgres_connector" (PyExc.connectionException e.pyStr)
          = .ok (some exc) →
      (postgresConnector acquire onError timeout envTimeout).outcome
          = .error exc)
  ∧ (onError "postgres_connector" (PyExc.connectionException e.pyStr)
        = .ok none →
      (postgresConnector acquire onError timeout envTimeout).outcome
          = .ok none) := by
  subst hacq
  refine ⟨?_, ?_, ?_⟩
  · cases ho : onError "postgres_connector" (PyExc.connectionException e.pyStr) with
    | error raised => simp [postgresConnector, hc, ho]
    | ok o => cases o <;> simp [postgresConnector, hc, ho]
  · intro exc hoe
    simp [postgresConnector, hc, hoe]
  · intro hoe
    simp [postgresConnector, hc, hoe]

/-- Witness for C4 at a concrete timed-out acquisition and a swallowing
on_error: the scope yields None instead of raising. -/
theorem c4_acquisition_witness :
    (postgresConnector (.error PyExc.timeoutError) swallowOnError none
      none).outcome = .ok none :=
  (c4_connector_acquisition_failure (.error PyExc.timeoutError) swallowOnError
    none none PyExc.timeoutError rfl rfl).2.2 rfl

/-- C5: postgres_status acquires with the fixed timeout 3, runs SELECT 1, and
never raises on a caught error: a failing acquisition or a failing execution
yields available false with the pool counters, and an error-free run yields
available true with the pool counters.  The hypotheses pin the driver call to
the operation SELECT 1 at timeout POSTGRES_STATUS_TIMEOUT, which is what the
execution path resolves to. -/
theorem c5_status_never_raises (pool : PoolState) (envTimeout : Option Nat)
    (acquire : Except PyExc Nat) (method : DriverExec) (t0 t1 : Nat) :
    (∀ e, acquire = .error e → e.isTimeoutOrPgError = true →
      postgresStatus pool envTimeout acquire method t0 t1
        = .ok ⟨false, pool.size, pool.freesize⟩)
  ∧ (∀ cur e, acquire = .ok cur →
      method "SELECT 1" POSTGRES_STATUS_TIMEOUT = .error e →
      e.isTimeoutOrPgError = true →
      postgresStatus pool envTimeout acquire method t0 t1
        = .ok ⟨false, pool.size, pool.freesize⟩)
  ∧ (∀ cur res qr, acquire = .ok cur →
      method "SELECT 1" POSTGRES_STATUS_TIMEOUT = .ok res →
      queryResults res = .ok qr →
      postgresStatus pool envTimeout acquire method t0 t1
        = .ok ⟨true, pool.size, pool.freesize⟩) := by
  refine ⟨?_, ?_, ?_⟩
  · intro e ha hc
    subst ha
    simp [postgresStatus, postgresConnector, statusOnError, hc]
  · intro cur e ha hm hc
    subst ha
    simp only [POSTGRES_STATUS_TIMEOUT] at hm
    simp [postgresStatus, postgresConnector, query, queryRun, statusOnError,
      initTimeout, resolveQueryTimeout, POSTGRES_STATUS_TIMEOUT, hm, hc]
  · intro cur res qr ha hm hres
    subst ha
    simp only [POSTGRES_STATUS_TIMEOUT] at hm
    simp [postgresStatus, postgresConnector, query, queryRun, statusOnError,
      initTimeout, resolveQueryTimeout, POSTGRES_STATUS_TIMEOUT, hm, hres]

/-- Witness for C5 at a pool of size 4 with 2 free and an acquisition that
always times out: status reports unavailable with the counters, raising
nothing. -/
theorem c5_status_witness :
    postgresStatus ⟨4, 2, false⟩ none (.error PyExc.timeoutError)
      alwaysTimeoutExec 0 0 = .ok ⟨false, 4, 2⟩ := by
  have h := (c5_status_never_raises ⟨4, 2, false⟩ none (.error PyExc.timeoutError)
    alwaysTimeoutExec 0 0).1 PyExc.timeoutError rfl rfl
  simpa using h

/-- C6: the timeout handed to the driver is the explicit per-call argument
when one is given, else the default the connector resolved at construction,
which is the global DEFAULT_POSTGRES_QUERY_TIMEOUT = 120 when neither a
construction-time timeout nor the environment variable is configured. -/
theorem c6_effective_timeout (ctorTimeout envTimeout callTimeout : Option Nat)
    (onError : OnError) (hasOnDuration : Bool) (method : DriverExec)
    (operation metricName : String) (t0 t1 : Nat) :
    (∀ t, callTimeout = some t →
      (query (initTimeout ctorTimeout envTimeout) onError hasOnDuration method
        operation metricName callTimeout t0 t1).driverTimeout = t)
  ∧ (callTimeout = none →
      (query (initTimeout ctorTimeout envTimeout) onError hasOnDuration method
        operation metricName callTimeout t0 t1).driverTimeout
        = initTimeout ctorTimeout envTimeout)
  ∧ (ctorTimeout = none → envTimeout = none →
      initTimeout ctorTimeout envTimeout = DEFAULT_POSTGRES_QUERY_TIMEOUT
      ∧ DEFAULT_POSTGRES_QUERY_TIMEOUT = 120) := by
  refine ⟨?_, ?_, ?_⟩
  · intro t h
    subst h
    rfl
  · intro h
    subst h
    rfl
  · intro h1 h2
    subst h1
    subst h2
    exact ⟨rfl, rfl⟩

/-- Witness for C6 at an explicit per-call timeout of 7 over a connector
configured with nothing: the driver receives 7. -/
theorem c6_timeout_witness :
    (query (initTimeout none none) returnOtherOnError false oneRowExec "Q" "m"
      (some 7) 0 0).driverTimeout = 7 :=
  (c6_effective_timeout none none (some 7) returnOtherOnError false oneRowExec
    "Q" "m" 0 0).1 7 rfl

/-- C9: when on_error swallows a statement error (returns None), _query falls
off its except arm and returns Python None rather than a QueryResult (its
declared return type), and neither result shaping nor the duration callback
happens on that path. -/
theorem c9_swallowed_error_returns_none (selfTimeout : Nat) (onError : OnError)
    (hasOnDuration : Bool) (method : DriverExec) (operation metricName : String)
    (callTimeout : Option Nat) (t0 t1 : Nat) (err : PyExc)
    (hm : method operation (resolveQueryTimeout callTimeout selfTimeout)
        = .error err)
    (hc : err.isTimeoutOrPgError = true)
    (hs : onError metricName err = .ok none) :
    (query selfTimeout onError hasOnDuration method operation metricName
        callTimeout t0 t1).result = .ok none
  ∧ (query selfTimeout onError hasOnDuration method operation metricName
        callTimeout t0 t1).onDurationArgs = none := by
  constructor <;> simp [query, queryRun, hm, hc, hs]

/-- Witness for C9 at a concrete timing-out driver and swallowing on_error:
the call returns None even though a duration callback is configured. -/
theorem c9_swallow_witness :
    (query 5 swallowOnError true alwaysTimeoutExec "Q" "m" none 0 9).result
      = .ok none :=
  (c9_swallowed_error_returns_none 5 swallowOnError true alwaysTimeoutExec
    "Q" "m" none 0 9 PyExc.timeoutError rfl rfl rfl).1

/-- C10: a construction-time timeout of 0 falls back to the global default
120 because __init__ tests truthiness, while an explicit per-call timeout of
0 reaches the driver as 0 because _query replaces the argument only when it
is None; in particular a connector built with timeout 0 issues a call with no
explicit timeout at 120. -/
theorem c10_zero_timeout_asymmetry (onError : OnError) (hasOnDuration : Bool)
    (method : DriverExec) (operation metricName : String) (t0 t1 : Nat)
    (selfTimeout : Nat) :
    initTimeout (some 0) none = 120
  ∧ (query selfTimeout onError hasOnDuration method operation metricName
        (some 0) t0 t1).driverTimeout = 0
  ∧ (query (initTimeout (some 0) none) onError hasOnDuration method operation
        metricName none t0 t1).driverTimeout = 120 :=
  ⟨rfl, rfl, rfl⟩

end SprocketsPostgres
